import Mathlib

/-!
Verification of the HealthOracle identity / account-recovery core.

The Python sources are shallowly embedded: the `users` SQLite table is a
list of rows, the process-wide `OTP_STORE` dict is an association list,
the Flask `session` dict is a structure of optional fields, and wall-clock
time is an integer parameter.  Library collaborators (werkzeug password
hashing, `random.randint`, SMTP delivery, Google token verification) are
modelled by explicit functions or parameters; everything else is
translated line by line from `app.py`, `auth.py`, `password_reset.py` and
`database.py`.
-/

/-! ## Python string primitives -/

/-- Models Python `str.strip()`: drop whitespace from both ends. -/
def pyStrip (s : String) : String :=
  ⟨((s.toList.dropWhile Char.isWhitespace).reverse.dropWhile Char.isWhitespace).reverse⟩

/-- ASCII uppercase of one character, modelling Python `str.upper` per char. -/
def pyCharUpper (c : Char) : Char :=
  if 'a' ≤ c ∧ c ≤ 'z' then Char.ofNat (c.toNat - 32) else c

/-- Models Python `str.upper()` (ASCII range, which covers user ids). -/
def pyUpper (s : String) : String := ⟨s.toList.map pyCharUpper⟩

/-- The decimal digit character for `n < 10`. -/
def decDigitChar (n : Nat) : Char := Char.ofNat (48 + n)

/-- Fuel-driven decimal printer: digits of `n`, most significant first. -/
def decChars : Nat → Nat → List Char
  | 0, _ => []
  | fuel + 1, n =>
    if n < 10 then [decDigitChar n]
    else decChars fuel (n / 10) ++ [decDigitChar (n % 10)]

/-- Models Python `str(n)` for a nonnegative integer `n` (decimal numeral). -/
def decStr (n : Nat) : String := ⟨decChars (n + 1) n⟩

/-- Left-pad a string with zero characters up to width `w`. -/
def padZeros (s : String) (w : Nat) : String :=
  ⟨List.replicate (w - s.toList.length) '0' ++ s.toList⟩

/-- Models the Python format `f"{n:04d}"`: zero-pad to a total width of 4,
the sign included for negative numbers. -/
def pyFormat04d (n : Int) : String :=
  if n < 0 then "-" ++ padZeros (decStr n.natAbs) 3 else padZeros (decStr n.toNat) 4

/-- Numeric value of a list of decimal digit characters. -/
def natOfDigits (cs : List Char) : Nat :=
  cs.foldl (fun a c => 10 * a + (c.toNat - 48)) 0

/-- Models the SQLite expression `CAST(s AS INTEGER)`: skip leading
whitespace, read an optional sign and the longest run of decimal digits
(`0` when there is none). -/
def sqliteCastInt (cs : List Char) : Int :=
  match cs.dropWhile Char.isWhitespace with
  | [] => 0
  | c :: rest =>
    if c = '-' then - (natOfDigits (rest.takeWhile Char.isDigit) : Int)
    else if c = '+' then (natOfDigits (rest.takeWhile Char.isDigit) : Int)
    else (natOfDigits ((c :: rest).takeWhile Char.isDigit) : Int)

/-- Models the SQL aggregate `MAX` over a column: `none` is SQL NULL,
produced on an empty set of rows. -/
def sqlMaxInt (l : List Int) : Option Int :=
  l.foldl (fun acc v => match acc with | none => some v | some m => some (max m v)) none

/-! ## IdentityStore: the `users` table (`database.py` / `app.py init_db`)

`init_db` creates `users(user_id TEXT PRIMARY KEY, password_hash TEXT NOT
NULL, name TEXT NOT NULL, email TEXT NOT NULL, phone TEXT)`.  Note that
the `email` column carries no UNIQUE constraint; only `user_id` is a
primary key. -/

structure UserRow where
  user_id : String
  password_hash : String
  name : String
  email : String
  phone : Option String
deriving DecidableEq, Repr

/-- `SELECT * FROM users WHERE user_id = ?` followed by `fetchone()`. -/
def get_user_by_id (db : List UserRow) (uid : String) : Option UserRow :=
  db.find? (fun u => u.user_id = uid)

/-- `SELECT * FROM users WHERE email = ?` followed by `fetchone()`. -/
def get_user_by_email (db : List UserRow) (email : String) : Option UserRow :=
  db.find? (fun u => u.email = email)

/-- `INSERT INTO users ... VALUES (?,?,?,?,?)` (`database.py create_user`).
SQLite enforces only the `user_id` primary key: a duplicate `user_id`
raises an IntegrityError, surfaced here as `Except.error`; a duplicate
`email` is accepted, the schema declaring no UNIQUE constraint on it. -/
def create_user (db : List UserRow) (r : UserRow) : Except String (List UserRow) :=
  if db.any (fun u => u.user_id = r.user_id) then
    Except.error "UNIQUE constraint failed: users.user_id"
  else
    Except.ok (db ++ [r])

/-- `UPDATE users SET password_hash = ? WHERE user_id = ?`
(`database.py update_password`). -/
def update_password (db : List UserRow) (uid h : String) : List UserRow :=
  db.map (fun u => if u.user_id = uid then { u with password_hash := h } else u)

/-- First character is `P` or `p`: the rows selected by
`WHERE user_id LIKE "P%"` (SQLite LIKE is ASCII case-insensitive). -/
def likeP (id : String) : Bool :=
  match id.toList with
  | c :: _ => c = 'P' || c = 'p'
  | [] => false

/-- `get_next_user_id` from `database.py` / `app.py`:
`SELECT MAX(CAST(SUBSTR(user_id, 2) AS INTEGER)) FROM users WHERE user_id
LIKE "P%"`, then `max_id if max_id else 0`, then `f"P{max_id + 1:04d}"`. -/
def get_next_user_id (db : List UserRow) : String :=
  let vals := (db.filter (fun u => likeP u.user_id)).map
    (fun u => sqliteCastInt (u.user_id.toList.drop 1))
  let max_id : Int :=
    match sqlMaxInt vals with
    | none => 0
    | some v => if v = 0 then 0 else v
  "P" ++ pyFormat04d (max_id + 1)

/-! ## Password hashing (werkzeug collaborator)

Modelled library collaborator: werkzeug's salted hash is abstracted as a
deterministic injective tag; the claims use only that a freshly generated
hash checks against its own password and against nothing else. -/

def generate_password_hash (p : String) : String := "pbkdf2$" ++ p

def check_password_hash (h p : String) : Bool := h = generate_password_hash p

/-! ## RecoveryOtpManager state (`password_reset.py` / `app.py`) -/

/-- One entry of the process-wide `OTP_STORE` dict:
`{'otp': ..., 'email': ..., 'timestamp': ...}`. -/
structure OtpEntry where
  otp : String
  email : String
  timestamp : Int
deriving DecidableEq, Repr

/-- Association-list model of the `OTP_STORE` dict, keyed by user id. -/
abbrev OtpStore := List (String × OtpEntry)

/-- Dict member lookup `OTP_STORE[user_id]` / `user_id in OTP_STORE`. -/
def lookupOtp : OtpStore → String → Option OtpEntry
  | [], _ => none
  | p :: s, k => if p.1 = k then some p.2 else lookupOtp s k

/-- Dict deletion `del OTP_STORE[user_id]`. -/
def eraseOtp : OtpStore → String → OtpStore
  | [], _ => []
  | p :: s, k => if p.1 = k then eraseOtp s k else p :: eraseOtp s k

/-- Dict assignment `OTP_STORE[user_id] = {...}` (replaces any prior
entry for the key). -/
def insertOtp (s : OtpStore) (k : String) (v : OtpEntry) : OtpStore :=
  (k, v) :: eraseOtp s k

/-- The OTP string built by `str(random.randint(100000, 999999))`.
The random draw is derandomised into an arbitrary seed: `randint(a, b)`
returns a value of `[a, b]`, here `100000 + seed % 900000`. -/
def otpOf (seed : Nat) : String := decStr (100000 + seed % 900000)

/-- The mutable state the recovery flow touches: the `users` table and
the `OTP_STORE` dict. -/
structure ForgotState where
  users : List UserRow
  otpStore : OtpStore
deriving DecidableEq

/-- Observable outcome of one POST to `/forgot`: the resulting state, the
`error` template variable, and whether the handler redirected to the
login page (the success path). -/
structure ForgotOutcome where
  st : ForgotState
  error : Option String
  redirect : Bool
deriving DecidableEq

/-- The `action == 'send_otp'` branch of `forgot_password`.  The email
collaborator is modelled in its development fallback, which always
reports the message delivered; note the store write precedes delivery. -/
def send_otp (st : ForgotState) (now : Int) (seed : Nat) (emailF userIdF : String) :
    ForgotOutcome :=
  let email := pyStrip emailF
  let user_id := pyStrip userIdF
  if email = "" ∨ user_id = "" then
    ⟨st, some "Please enter both email and user ID.", false⟩
  else
    match get_user_by_id st.users user_id with
    | none => ⟨st, some "User ID not found.", false⟩
    | some user =>
      if user.email ≠ email then
        ⟨st, some "Email doesn't match our records.", false⟩
      else
        let otp := otpOf seed
        ⟨{ st with otpStore := insertOtp st.otpStore user_id ⟨otp, email, now⟩ }, none, false⟩

/-- The `action == 'verify_otp'` branch of `forgot_password`, translated
check for check: field presence, password length, password confirmation,
then the `OTP_STORE` membership test, the TTL test (`now - timestamp >
600` deletes the entry), the code test (entry retained), the bound-email
test (entry retained), and finally the password update, the entry
deletion and the redirect to login. -/
def verify_otp (st : ForgotState) (now : Int)
    (emailF userIdF otpF newPass confirmPass : String) : ForgotOutcome :=
  let email := pyStrip emailF
  let user_id := pyStrip userIdF
  let otp := pyStrip otpF
  if otp = "" ∨ newPass = "" ∨ confirmPass = "" then
    ⟨st, some "All fields are required.", false⟩
  else if newPass.toList.length < 8 then
    ⟨st, some "Password must be at least 8 characters.", false⟩
  else if newPass ≠ confirmPass then
    ⟨st, some "Passwords do not match.", false⟩
  else
    match lookupOtp st.otpStore user_id with
    | some stored =>
      if now - stored.timestamp > 600 then
        ⟨{ st with otpStore := eraseOtp st.otpStore user_id },
          some "OTP expired. Please request a new one.", false⟩
      else if stored.otp ≠ otp then
        ⟨st, some "Invalid OTP. Please try again.", false⟩
      else if stored.email ≠ email then
        ⟨st, some "Email mismatch.", false⟩
      else
        ⟨⟨update_password st.users user_id (generate_password_hash newPass),
            eraseOtp st.otpStore user_id⟩, none, true⟩
    | none => ⟨st, some "Session expired. Please request a new OTP.", false⟩

/-! ## SessionManager: the Flask `session` dict

Only the keys the identity core reads or writes are tracked; each is
optional, `none` meaning the key is absent from the dict. -/

structure Session where
  user_id : Option String
  google_linked : Option Bool
  google_email : Option String
  google_name : Option String
  google_sub : Option String
deriving DecidableEq, Repr

/-- `session.clear()` leaves an empty dict. -/
def emptySession : Session := ⟨none, none, none, none, none⟩

/-- Observable outcome of one POST of a login form: whether the handler
redirected to the dashboard, the `error` template variable, and the
session afterwards. -/
structure LoginOutcome where
  redirect : Bool
  error : Option String
  sess : Session
deriving DecidableEq, Repr

/-- The `login` route of `app.py` (lines 118-141): strip the submitted
id, require both fields, look the user up and check the password; on
success set `session['user_id']` (the rest of the session dict is left
as it was) and redirect to the dashboard. -/
def app_login (users : List UserRow) (sess : Session) (userIdF password : String) :
    LoginOutcome :=
  let user_id := pyStrip userIdF
  if user_id = "" ∨ password = "" then
    ⟨false, some "User ID and password are required.", sess⟩
  else
    match get_user_by_id users user_id with
    | some user =>
      if check_password_hash user.password_hash password then
        ⟨true, none, { sess with user_id := some user_id }⟩
      else ⟨false, some "Invalid user ID or password.", sess⟩
    | none => ⟨false, some "Invalid user ID or password.", sess⟩

/-- The `login` function of `auth.py` (lines 13-36): uppercase the
submitted id, require both fields, look the user up and check the
password; on success `session.clear()` and then set `session['user_id']`. -/
def auth_login (users : List UserRow) (sess : Session) (userIdF password : String) :
    LoginOutcome :=
  let user_id := pyUpper userIdF
  if user_id = "" ∨ password = "" then
    ⟨false, some "User ID and password are required.", sess⟩
  else
    match get_user_by_id users user_id with
    | none => ⟨false, some "Invalid user ID or password.", sess⟩
    | some user =>
      if ¬ check_password_hash user.password_hash password then
        ⟨false, some "Invalid user ID or password.", sess⟩
      else
        ⟨true, none, { emptySession with user_id := some user_id }⟩

/-! ## FederatedIdentityBroker: the `auth_google` route of `app.py` -/

/-- How one `auth_google` call resolves: an established login session, a
redirect to the account-linking page, or a JSON error response. -/
inductive GoogleResolution where
  | loginSession (uid : String)
  | pendingLink
  | rejected (msg : String)
deriving DecidableEq, Repr

structure GoogleOutcome where
  res : GoogleResolution
  sess : Session
  users : List UserRow
deriving DecidableEq, Repr

/-- The `auth_google` route of `app.py` (lines 144-186), starting after
the external token verification: `email` and `sub` are the claims of the
verified payload (`payload.get` may yield nothing), and `isSignup` is the
heuristic `request.referrer and 'signup' in request.referrer`.  The route
only issues SELECTs, so the table is returned unchanged.  Note that the
payload name is never read: the pending state stores only
`google_email` and `google_sub`. -/
def auth_google (users : List UserRow) (sess : Session)
    (email sub : Option String) (isSignup : Bool) : GoogleOutcome :=
  match email with
  | none => ⟨GoogleResolution.rejected "Email not found in token", sess, users⟩
  | some e =>
    match get_user_by_email users e with
    | some user =>
      ⟨GoogleResolution.loginSession user.user_id,
        { sess with user_id := some user.user_id, google_linked := some true }, users⟩
    | none =>
      if isSignup then
        ⟨GoogleResolution.pendingLink,
          { sess with google_email := some e, google_sub := sub }, users⟩
      else
        ⟨GoogleResolution.rejected
          "No account found with this email. Please sign up first.", sess, users⟩

/-! ## Signup: the `signup` route of `app.py` -/

structure SignupOutcome where
  users : List UserRow
  error : Option String
  redirect : Bool
deriving DecidableEq, Repr

/-- The phone validation of `signup` (`app.py` lines 334-348): `none`
when the number passes, otherwise the error message. -/
def validate_phone (phone country_code : String) : Option String :=
  let digits_only := phone.toList.filter Char.isDigit
  if country_code = "+977" then
    if digits_only.length = 10 ∧
        (List.isPrefixOf ['9', '7'] digits_only ∨ List.isPrefixOf ['9', '8'] digits_only) then
      none
    else some "Please enter a valid number."
  else
    if digits_only.length ≥ 10 then none
    else some "Please enter a valid phone number (at least 10 digits)."

/-- The `if not error:` tail of the `signup` route: reject an email that
is already registered, otherwise allocate an id and INSERT the row. -/
def signup_insert (users : List UserRow)
    (full_name email phone country_code password : String) : SignupOutcome :=
  match get_user_by_email users email with
  | some _ =>
    ⟨users, some "Email already exists. Please use a different email or login.", false⟩
  | none =>
    let user_id := get_next_user_id users
    let password_hash := generate_password_hash password
    let full_phone := if phone ≠ "" then some (country_code ++ " " ++ phone) else none
    match create_user users ⟨user_id, password_hash, full_name, email, full_phone⟩ with
    | Except.ok users2 => ⟨users2, none, true⟩
    | Except.error e => ⟨users, some ("Error creating account: " ++ e), false⟩

/-- The POST branch of the `signup` route of `app.py` (lines 295-376):
the validation chain, the duplicate-email lookup, then
`get_next_user_id`, password hashing and the INSERT. -/
def signup_post (users : List UserRow)
    (nameF emailF phoneF countryF password confirm : String) : SignupOutcome :=
  let full_name := pyStrip nameF
  let email := pyStrip emailF
  let phone := pyStrip phoneF
  let country_code := pyStrip countryF
  if full_name = "" then ⟨users, some "Full name is required.", false⟩
  else if email = "" ∨ ¬ email.toList.contains '@' then
    ⟨users, some "Please enter a valid email address.", false⟩
  else if password = "" then ⟨users, some "Password is required.", false⟩
  else if password.toList.length < 8 then
    ⟨users, some "Password must be at least 8 characters.", false⟩
  else if confirm = "" then ⟨users, some "Please confirm your password.", false⟩
  else if password ≠ confirm then ⟨users, some "Passwords do not match.", false⟩
  else if phone ≠ "" then
    match validate_phone phone country_code with
    | some msg => ⟨users, some msg, false⟩
    | none => signup_insert users full_name email phone country_code password
  else signup_insert users full_name email phone country_code password

/-! ## Claim-side definitions

These follow the wording of the specification, to be compared with the
code-side functions above. -/

/-- The strict `P####` pattern of the specification: a capital `P`
followed by exactly four decimal digits. -/
def isP4 (id : String) : Bool :=
  match id.toList with
  | c :: rest => c = 'P' && rest.length = 4 && rest.all Char.isDigit
  | [] => false

/-- Numeric value of the suffix after the leading character. -/
def p4val (id : String) : Nat := natOfDigits (id.toList.drop 1)

/-- `allocateNextId` as the specification words it: one greater than the
maximum numeric suffix among ids matching the `P####` pattern, zero
padded; `P0001` when no such id exists. -/
def allocate_next_id_claim (db : List UserRow) : String :=
  let vals := (db.filter (fun u => isP4 u.user_id)).map (fun u => p4val u.user_id)
  match vals.max? with
  | none => "P0001"
  | some m => "P" ++ padZeros (decStr (m + 1)) 4

/-! ## Helper lemmas: decimal printing -/

theorem decChars_mem (f n : Nat) :
    ∀ c ∈ decChars f n, ∃ d, d < 10 ∧ c = decDigitChar d := by
  induction f generalizing n with
  | zero => simp [decChars]
  | succ f ih =>
    intro c hc
    by_cases h : n < 10
    · simp only [decChars, if_pos h, List.mem_singleton] at hc
      exact ⟨n, h, hc⟩
    · simp only [decChars, if_neg h, List.mem_append, List.mem_singleton] at hc
      cases hc with
      | inl h2 => exact ih _ c h2
      | inr h2 => exact ⟨n % 10, Nat.mod_lt _ (by norm_num), h2⟩

theorem decChars_ne_nil (f n : Nat) (hf : n < f) : decChars f n ≠ [] := by
  cases f with
  | zero => omega
  | succ f =>
    by_cases h : n < 10
    · simp [decChars, h]
    · simp [decChars, h]

theorem decChars_length (f n k : Nat) (hf : n < f) (h1 : 10 ^ k ≤ n)
    (h2 : n < 10 ^ (k + 1)) : (decChars f n).length = k + 1 := by
  induction f generalizing n k with
  | zero => omega
  | succ f ih =>
    by_cases h : n < 10
    · have hk : k = 0 := by
        by_contra hk
        have : (10 : Nat) ^ 1 ≤ 10 ^ k := Nat.pow_le_pow_right (by norm_num) (by omega)
        simp at this
        omega
      subst hk
      simp [decChars, h]
    · obtain ⟨j, rfl⟩ : ∃ j, k = j + 1 := by
        refine ⟨k - 1, ?_⟩
        rcases Nat.eq_zero_or_pos k with hk | hk
        · subst hk; simp at h2; omega
        · omega
      have hd1 : 10 ^ j ≤ n / 10 := by
        rw [Nat.le_div_iff_mul_le (by norm_num)]
        calc 10 ^ j * 10 = 10 ^ (j + 1) := (pow_succ 10 j).symm
          _ ≤ n := h1
      have hd2 : n / 10 < 10 ^ (j + 1) := by
        rw [Nat.div_lt_iff_lt_mul (by norm_num)]
        calc n < 10 ^ (j + 1 + 1) := h2
          _ = 10 ^ (j + 1) * 10 := pow_succ 10 (j + 1)
      have hdf : n / 10 < f := by
        have : n / 10 < n := Nat.div_lt_self (by omega) (by norm_num)
        omega
      simp only [decChars, if_neg h, List.length_append, List.length_singleton]
      rw [ih (n / 10) j hdf hd1 hd2]

theorem decChars_head (f n : Nat) (hf : n < f) (hn : 0 < n) :
    ∃ d, 0 < d ∧ d < 10 ∧ (decChars f n).head? = some (decDigitChar d) := by
  induction f generalizing n with
  | zero => omega
  | succ f ih =>
    by_cases h : n < 10
    · exact ⟨n, hn, h, by simp [decChars, h]⟩
    · have hdf : n / 10 < f := by
        have : n / 10 < n := Nat.div_lt_self (by omega) (by norm_num)
        omega
      have hdp : 0 < n / 10 := Nat.div_pos (by omega) (by norm_num)
      obtain ⟨d, hd1, hd2, hd3⟩ := ih (n / 10) hdf hdp
      refine ⟨d, hd1, hd2, ?_⟩
      simp only [decChars, if_neg h]
      obtain ⟨c, cs, hcons⟩ : ∃ c cs, decChars f (n / 10) = c :: cs := by
        cases hc : decChars f (n / 10) with
        | nil => exact absurd hc (decChars_ne_nil f (n / 10) hdf)
        | cons c cs => exact ⟨c, cs, rfl⟩
      rw [hcons]
      rw [hcons] at hd3
      simpa using hd3

theorem decStr_length (n k : Nat) (h1 : 10 ^ k ≤ n) (h2 : n < 10 ^ (k + 1)) :
    (decStr n).toList.length = k + 1 :=
  decChars_length (n + 1) n k (Nat.lt_succ_self n) h1 h2

theorem decStr_head_ne_zero (n : Nat) (hn : 0 < n) :
    (decStr n).toList.head? ≠ some '0' := by
  obtain ⟨d, hd1, hd2, hd3⟩ := decChars_head (n + 1) n (Nat.lt_succ_self n) hn
  show (decChars (n + 1) n).head? ≠ some '0'
  rw [hd3]
  intro hcontra
  have : decDigitChar d = '0' := by injection hcontra
  interval_cases d <;> revert this <;> decide

theorem decStr_digits (n : Nat) : ∀ c ∈ (decStr n).toList, c.isDigit = true := by
  intro c hc
  obtain ⟨d, hd, rfl⟩ := decChars_mem (n + 1) n c hc
  interval_cases d <;> decide

theorem decStr_not_whitespace (n : Nat) :
    ∀ c ∈ (decStr n).toList, c.isWhitespace = false := by
  intro c hc
  obtain ⟨d, hd, rfl⟩ := decChars_mem (n + 1) n c hc
  interval_cases d <;> decide

theorem decStr_ne_nil (n : Nat) : (decStr n).toList ≠ [] :=
  decChars_ne_nil (n + 1) n (Nat.lt_succ_self n)

/-! ## Helper lemmas: strings and stripping -/

theorem string_mk_toList (s : String) : String.mk s.toList = s := rfl

theorem dropWhile_eq_self_of_forall {p : Char → Bool} {l : List Char}
    (h : ∀ c ∈ l, p c = false) : l.dropWhile p = l := by
  cases l with
  | nil => rfl
  | cons a l => simp [List.dropWhile_cons, h a (List.mem_cons_self a l)]

theorem pyStrip_eq_self (s : String) (h : ∀ c ∈ s.toList, c.isWhitespace = false) :
    pyStrip s = s := by
  unfold pyStrip
  rw [dropWhile_eq_self_of_forall h]
  rw [dropWhile_eq_self_of_forall (fun c hc => h c (List.mem_reverse.mp hc))]
  rw [List.reverse_reverse]
  exact string_mk_toList s

theorem string_ne_empty_of_toList_ne_nil (s : String) (h : s.toList ≠ []) : s ≠ "" := by
  intro hcontra
  subst hcontra
  exact h rfl

/-! ## Helper lemmas: the OTP code string -/

theorem otpOf_bounds (seed : Nat) :
    100000 ≤ 100000 + seed % 900000 ∧ 100000 + seed % 900000 < 1000000 := by
  have : seed % 900000 < 900000 := Nat.mod_lt _ (by norm_num)
  omega

theorem otpOf_length (seed : Nat) : (otpOf seed).toList.length = 6 := by
  obtain ⟨h1, h2⟩ := otpOf_bounds seed
  exact decStr_length _ 5 (by norm_num [h1]) (by norm_num [h2])

theorem otpOf_strip (seed : Nat) : pyStrip (otpOf seed) = otpOf seed :=
  pyStrip_eq_self _ (decStr_not_whitespace _)

theorem otpOf_ne_empty (seed : Nat) : otpOf seed ≠ "" :=
  string_ne_empty_of_toList_ne_nil _ (decStr_ne_nil _)

/-! ## Helper lemmas: the user table and the OTP store -/

theorem get_user_by_id_update_password (db : List UserRow) (uid h : String) :
    get_user_by_id (update_password db uid h) uid
      = (get_user_by_id db uid).map (fun u => { u with password_hash := h }) := by
  induction db with
  | nil => rfl
  | cons u db ih =>
    by_cases e : u.user_id = uid
    · simp [get_user_by_id, update_password, List.find?_cons, e]
    · simp only [get_user_by_id, update_password, List.map_cons] at *
      rw [if_neg e]
      rw [List.find?_cons_of_neg _ (by simpa using e), List.find?_cons_of_neg _ (by simpa using e)]
      exact ih

theorem lookupOtp_insert_self (s : OtpStore) (k : String) (v : OtpEntry) :
    lookupOtp (insertOtp s k v) k = some v := by
  simp [lookupOtp, insertOtp]

theorem lookupOtp_erase_self (s : OtpStore) (k : String) :
    lookupOtp (eraseOtp s k) k = none := by
  induction s with
  | nil => rfl
  | cons p s ih =>
    by_cases e : p.1 = k
    · simpa [eraseOtp, e] using ih
    · simpa [eraseOtp, lookupOtp, e] using ih

/-! ## Claims -/

/-- C1: for a live OTP challenge, a verify call with the matching code
and bound email (and well-formed password fields) succeeds whenever
`now - issuedAt ≤ 600`; with `now - issuedAt > 600` it reports the OTP
expired, deletes the challenge as a side effect, and a follow-up verify
for that user id reports the not-found outcome ("Session expired"). -/
theorem c1_otp_expiry_boundary (st : ForgotState) (now later : Int)
    (uid em code np : String) (entry : OtpEntry)
    (hsu : pyStrip uid = uid) (hse : pyStrip em = em) (hsc : pyStrip code = code)
    (hlook : lookupOtp st.otpStore uid = some entry)
    (hcode : entry.otp = code) (hem : entry.email = em)
    (hc : code ≠ "") (hnp : np ≠ "") (hlen : 8 ≤ np.toList.length) :
    (now - entry.timestamp ≤ 600 → (verify_otp st now em uid code np np).redirect = true) ∧
    (600 < now - entry.timestamp →
      (verify_otp st now em uid code np np).error = some "OTP expired. Please request a new one." ∧
      lookupOtp (verify_otp st now em uid code np np).st.otpStore uid = none ∧
      (verify_otp (verify_otp st now em uid code np np).st later em uid code np np).error
        = some "Session expired. Please request a new OTP.") := by
  have hval : ¬ (code = "" ∨ np = "" ∨ np = "") := by push_neg; exact ⟨hc, hnp, hnp⟩
  have hlen2 : ¬ (np.toList.length < 8) := by omega
  have hnene : ¬ (np ≠ np) := by simp
  constructor
  · intro ht
    simp only [verify_otp, hsu, hse, hsc, hlook]
    rw [if_neg hval, if_neg hlen2, if_neg hnene]
    rw [if_neg (by omega), if_neg (by simp [hcode]), if_neg (by simp [hem])]
  · intro ht
    have hexp :
        verify_otp st now em uid code np np =
          ⟨{ st with otpStore := eraseOtp st.otpStore uid },
            some "OTP expired. Please request a new one.", false⟩ := by
      simp only [verify_otp, hsu, hse, hsc, hlook]
      rw [if_neg hval, if_neg hlen2, if_neg hnene]
      rw [if_pos (by omega)]
    refine ⟨by rw [hexp], ?_, ?_⟩
    · rw [hexp]
      exact lookupOtp_erase_self st.otpStore uid
    · rw [hexp]
      simp only [verify_otp, hsu, hse, hsc]
      rw [if_neg hval, if_neg hlen2, if_neg hnene]
      rw [lookupOtp_erase_self st.otpStore uid]

/-- Witness for C1: a concrete challenge issued at time 0, verified at
601 with the matching code: the expiry branch fires, the entry is
deleted, and the follow-up verify reports the not-found outcome. -/
theorem c1_otp_expiry_boundary_witness :
    (verify_otp ⟨[], [("P0001", ⟨"123456", "a@b.c", 0⟩)]⟩ 601 "a@b.c" "P0001" "123456"
        "longpass1" "longpass1").error = some "OTP expired. Please request a new one." ∧
    (verify_otp ⟨[], [("P0001", ⟨"123456", "a@b.c", 0⟩)]⟩ 600 "a@b.c" "P0001" "123456"
        "longpass1" "longpass1").redirect = true := by
  have h := c1_otp_expiry_boundary ⟨[], [("P0001", ⟨"123456", "a@b.c", 0⟩)]⟩ 601 602
    "P0001" "a@b.c" "123456" "longpass1" ⟨"123456", "a@b.c", 0⟩
    (by decide) (by decide) (by decide) (by decide) (by decide) (by decide)
    (by decide) (by decide) (by decide)
  have h2 := c1_otp_expiry_boundary ⟨[], [("P0001", ⟨"123456", "a@b.c", 0⟩)]⟩ 600 602
    "P0001" "a@b.c" "123456" "longpass1" ⟨"123456", "a@b.c", 0⟩
    (by decide) (by decide) (by decide) (by decide) (by decide) (by decide)
    (by decide) (by decide) (by decide)
  exact ⟨(h.2 (by norm_num)).1, h2.1 (by norm_num)⟩

/-- C2: for a known user id with stored email `em`, issuing a challenge
and immediately verifying with the generated code, the bound email and a
valid new password succeeds: the stored password hash becomes the hash of
the new password, the challenge is consumed, and a second verify with the
same code reports the not-found outcome. -/
theorem c2_otp_happy_path (st : ForgotState) (seed : Nat) (now later : Int)
    (uid em np : String) (u : UserRow)
    (hsu : pyStrip uid = uid) (hse : pyStrip em = em)
    (hfind : get_user_by_id st.users uid = some u) (hmail : u.email = em)
    (hu : uid ≠ "") (he : em ≠ "") (hnp : np ≠ "") (hlen : 8 ≤ np.toList.length) :
    (send_otp st now seed em uid).error = none ∧
    (verify_otp (send_otp st now seed em uid).st now em uid (otpOf seed) np np).redirect = true ∧
    get_user_by_id
        (verify_otp (send_otp st now seed em uid).st now em uid (otpOf seed) np np).st.users uid
      = some { u with password_hash := generate_password_hash np } ∧
    lookupOtp
        (verify_otp (send_otp st now seed em uid).st now em uid (otpOf seed) np np).st.otpStore uid
      = none ∧
    (verify_otp (verify_otp (send_otp st now seed em uid).st now em uid (otpOf seed) np np).st
        later em uid (otpOf seed) np np).error
      = some "Session expired. Please request a new OTP." := by
  have hval : ¬ (otpOf seed = "" ∨ np = "" ∨ np = "") := by
    push_neg
    exact ⟨otpOf_ne_empty seed, hnp, hnp⟩
  have hlen2 : ¬ (np.toList.length < 8) := by omega
  have hnene : ¬ (np ≠ np) := by simp
  have hsend : send_otp st now seed em uid =
      ⟨{ st with otpStore := insertOtp st.otpStore uid ⟨otpOf seed, em, now⟩ }, none, false⟩ := by
    simp only [send_otp, hsu, hse, hfind]
    rw [if_neg (by push_neg; exact ⟨he, hu⟩), if_neg (by simp [hmail])]
  have hver : verify_otp (send_otp st now seed em uid).st now em uid (otpOf seed) np np =
      ⟨⟨update_password st.users uid (generate_password_hash np),
          eraseOtp (insertOtp st.otpStore uid ⟨otpOf seed, em, now⟩) uid⟩, none, true⟩ := by
    rw [hsend]
    simp only [verify_otp, hsu, hse, otpOf_strip]
    rw [if_neg hval, if_neg hlen2, if_neg hnene]
    simp only [lookupOtp_insert_self]
    rw [if_neg (by omega), if_neg (by simp), if_neg (by simp)]
  refine ⟨by rw [hsend], by rw [hver], ?_, by rw [hver]; exact lookupOtp_erase_self _ _, ?_⟩
  · rw [hver]
    show get_user_by_id (update_password st.users uid (generate_password_hash np)) uid = _
    rw [get_user_by_id_update_password, hfind]
    rfl
  · rw [hver]
    simp only [verify_otp, hsu, hse, otpOf_strip]
    rw [if_neg hval, if_neg hlen2, if_neg hnene]
    simp only [lookupOtp_erase_self]

/-- Witness for C2: a concrete store with one user; issue at time 5 and
verify at time 5 with the generated code succeeds and consumes the
challenge; re-verifying reports the not-found outcome. -/
theorem c2_otp_happy_path_witness :
    (verify_otp (send_otp ⟨[⟨"P0001", "h0", "Alice", "a@b.c", none⟩], []⟩ 5 0 "a@b.c" "P0001").st
        5 "a@b.c" "P0001" (otpOf 0) "longpass1" "longpass1").redirect = true ∧
    (verify_otp
        (verify_otp (send_otp ⟨[⟨"P0001", "h0", "Alice", "a@b.c", none⟩], []⟩ 5 0 "a@b.c" "P0001").st
          5 "a@b.c" "P0001" (otpOf 0) "longpass1" "longpass1").st
        6 "a@b.c" "P0001" (otpOf 0) "longpass1" "longpass1").error
      = some "Session expired. Please request a new OTP." := by
  have h := c2_otp_happy_path ⟨[⟨"P0001", "h0", "Alice", "a@b.c", none⟩], []⟩ 0 5 6
    "P0001" "a@b.c" "longpass1" ⟨"P0001", "h0", "Alice", "a@b.c", none⟩
    (by decide) (by decide) (by decide) (by decide) (by decide) (by decide)
    (by decide) (by decide)
  exact ⟨h.2.1, h.2.2.2.2⟩

/-- C3: for a live, unexpired challenge, a verify whose supplied code or
supplied email does not match the stored challenge reports the matching
mismatch outcome and leaves the whole state unchanged, so a subsequent
verify with the stored code and bound email within the TTL succeeds. -/
theorem c3_otp_mismatch_nondestructive (st : ForgotState) (now now2 : Int)
    (uid em2 code2 np : String) (entry : OtpEntry)
    (hsu : pyStrip uid = uid) (hse2 : pyStrip em2 = em2) (hsc2 : pyStrip code2 = code2)
    (hsce : pyStrip entry.otp = entry.otp) (hsee : pyStrip entry.email = entry.email)
    (hlook : lookupOtp st.otpStore uid = some entry)
    (ht1 : now - entry.timestamp ≤ 600) (ht2 : now2 - entry.timestamp ≤ 600)
    (hmis : code2 ≠ entry.otp ∨ (code2 = entry.otp ∧ em2 ≠ entry.email))
    (hc2 : code2 ≠ "") (hce : entry.otp ≠ "") (hnp : np ≠ "") (hlen : 8 ≤ np.toList.length) :
    (verify_otp st now em2 uid code2 np np).st = st ∧
    (verify_otp st now em2 uid code2 np np).redirect = false ∧
    ((verify_otp st now em2 uid code2 np np).error = some "Invalid OTP. Please try again." ∨
      (verify_otp st now em2 uid code2 np np).error = some "Email mismatch.") ∧
    (verify_otp (verify_otp st now em2 uid code2 np np).st now2 entry.email uid entry.otp
        np np).redirect = true := by
  have hlen2 : ¬ (np.toList.length < 8) := by omega
  have hnene : ¬ (np ≠ np) := by simp
  have hbad : verify_otp st now em2 uid code2 np np =
      ⟨st, some (if entry.otp ≠ code2 then "Invalid OTP. Please try again." else "Email mismatch."),
        false⟩ := by
    simp only [verify_otp, hsu, hse2, hsc2, hlook]
    rw [if_neg (by push_neg; exact ⟨hc2, hnp, hnp⟩), if_neg hlen2, if_neg hnene]
    rw [if_neg (by omega)]
    rcases hmis with hmis | ⟨hmis1, hmis2⟩
    · rw [if_pos (by intro hcontra; exact hmis hcontra.symm)]
      rw [if_pos (by intro hcontra; exact hmis hcontra.symm)]
    · rw [if_neg (by simp [hmis1]), if_pos (by intro hcontra; exact hmis2 hcontra.symm)]
      rw [if_neg (by simp [hmis1])]
  refine ⟨by rw [hbad], by rw [hbad], ?_, ?_⟩
  · rw [hbad]
    by_cases h : entry.otp ≠ code2
    · left; rw [if_pos h]
    · right; rw [if_neg h]
  · rw [hbad]
    simp only [verify_otp, hsu, hsce, hsee, hlook]
    rw [if_neg (by push_neg; exact ⟨hce, hnp, hnp⟩), if_neg hlen2, if_neg hnene]
    rw [if_neg (by omega), if_neg (by simp), if_neg (by simp)]

/-- Witness for C3: a wrong code against a live challenge reports the
invalid-code outcome and a correct retry at time 500 succeeds. -/
theorem c3_otp_mismatch_nondestructive_witness :
    (verify_otp ⟨[], [("P0001", ⟨"123456", "a@b.c", 0⟩)]⟩ 400 "a@b.c" "P0001" "654321"
        "longpass1" "longpass1").st = ⟨[], [("P0001", ⟨"123456", "a@b.c", 0⟩)]⟩ ∧
    (verify_otp
        (verify_otp ⟨[], [("P0001", ⟨"123456", "a@b.c", 0⟩)]⟩ 400 "a@b.c" "P0001" "654321"
          "longpass1" "longpass1").st
        500 "a@b.c" "P0001" "123456" "longpass1" "longpass1").redirect = true := by
  have h := c3_otp_mismatch_nondestructive ⟨[], [("P0001", ⟨"123456", "a@b.c", 0⟩)]⟩ 400 500
    "P0001" "a@b.c" "654321" "longpass1" ⟨"123456", "a@b.c", 0⟩
    (by decide) (by decide) (by decide) (by decide) (by decide) (by decide)
    (by decide) (by decide) (Or.inl (by decide)) (by decide) (by decide) (by decide) (by decide)
  exact ⟨h.1, h.2.2.2⟩

/-- C10: when the OTP field, new password or confirmation is missing, the
new password is shorter than 8 characters, or the passwords differ, the
recovery verify reports a validation error without consulting the
challenge store: the whole state (including an already-expired challenge
and all password hashes) is unchanged, and the reported error does not
depend on the challenge store at all. -/
theorem c10_validation_before_store (st : ForgotState) (now : Int)
    (em uid otpF np cp : String)
    (hval : pyStrip otpF = "" ∨ np = "" ∨ cp = "" ∨ np.toList.length < 8 ∨ np ≠ cp) :
    (verify_otp st now em uid otpF np cp).st = st ∧
    (verify_otp st now em uid otpF np cp).redirect = false ∧
    ((verify_otp st now em uid otpF np cp).error = some "All fields are required." ∨
      (verify_otp st now em uid otpF np cp).error = some "Password must be at least 8 characters." ∨
      (verify_otp st now em uid otpF np cp).error = some "Passwords do not match.") ∧
    (∀ other : OtpStore, (verify_otp ⟨st.users, other⟩ now em uid otpF np cp).error
        = (verify_otp st now em uid otpF np cp).error) := by
  by_cases h1 : pyStrip otpF = "" ∨ np = "" ∨ cp = ""
  · have he : ∀ s : ForgotState, verify_otp s now em uid otpF np cp =
        ⟨s, some "All fields are required.", false⟩ := by
      intro s
      simp only [verify_otp]
      rw [if_pos h1]
    exact ⟨by rw [he], by rw [he], Or.inl (by rw [he]), fun other => by rw [he, he]⟩
  · by_cases h2 : np.toList.length < 8
    · have he : ∀ s : ForgotState, verify_otp s now em uid otpF np cp =
          ⟨s, some "Password must be at least 8 characters.", false⟩ := by
        intro s
        simp only [verify_otp]
        rw [if_neg h1, if_pos h2]
      exact ⟨by rw [he], by rw [he], Or.inr (Or.inl (by rw [he])), fun other => by rw [he, he]⟩
    · have h3 : np ≠ cp := by tauto
      have he : ∀ s : ForgotState, verify_otp s now em uid otpF np cp =
          ⟨s, some "Passwords do not match.", false⟩ := by
        intro s
        simp only [verify_otp]
        rw [if_neg h1, if_neg h2, if_pos h3]
      exact ⟨by rw [he], by rw [he], Or.inr (Or.inr (by rw [he])), fun other => by rw [he, he]⟩

/-- Witness for C10: an empty OTP field against a store holding an
already-expired challenge (issued at 0, now 9999): the state, the expired
entry included, is untouched. -/
theorem c10_validation_before_store_witness :
    (verify_otp ⟨[⟨"P0001", "h0", "Alice", "a@b.c", none⟩], [("P0001", ⟨"123456", "a@b.c", 0⟩)]⟩
        9999 "a@b.c" "P0001" "" "longpass1" "longpass1").st
      = ⟨[⟨"P0001", "h0", "Alice", "a@b.c", none⟩], [("P0001", ⟨"123456", "a@b.c", 0⟩)]⟩ ∧
    (verify_otp ⟨[⟨"P0001", "h0", "Alice", "a@b.c", none⟩], [("P0001", ⟨"123456", "a@b.c", 0⟩)]⟩
        9999 "a@b.c" "P0001" "" "longpass1" "longpass1").error
      = some "All fields are required." := by
  have h := c10_validation_before_store
    ⟨[⟨"P0001", "h0", "Alice", "a@b.c", none⟩], [("P0001", ⟨"123456", "a@b.c", 0⟩)]⟩
    9999 "a@b.c" "P0001" "" "longpass1" "longpass1" (Or.inl (by decide))
  refine ⟨h.1, ?_⟩
  rcases h.2.2.1 with he | he | he
  · exact he
  · exact absurd he (by decide)
  · exact absurd he (by decide)

/-- C8: two-run equality for failed password logins.  For non-empty
credentials, whether the user id is unknown or the password does not
match the stored hash, both the `app.py` login and the `auth.py` login
produce the identical generic failure ("Invalid user ID or password."),
no redirect, and an unchanged session, so the two failure causes are
indistinguishable to the caller. -/
theorem c8_login_no_enumeration (users : List UserRow) (sess1 sess2 : Session)
    (uid1 pw1 uid2 pw2 : String)
    (h1 : pyStrip uid1 ≠ "") (h2 : pw1 ≠ "") (h3 : pyStrip uid2 ≠ "") (h4 : pw2 ≠ "")
    (h5 : pyUpper uid1 ≠ "") (h6 : pyUpper uid2 ≠ "")
    (hf1 : ∀ u, get_user_by_id users (pyStrip uid1) = some u →
      check_password_hash u.password_hash pw1 = false)
    (hf2 : ∀ u, get_user_by_id users (pyStrip uid2) = some u →
      check_password_hash u.password_hash pw2 = false)
    (hf3 : ∀ u, get_user_by_id users (pyUpper uid1) = some u →
      check_password_hash u.password_hash pw1 = false)
    (hf4 : ∀ u, get_user_by_id users (pyUpper uid2) = some u →
      check_password_hash u.password_hash pw2 = false) :
    (app_login users sess1 uid1 pw1).error = some "Invalid user ID or password." ∧
    (app_login users sess2 uid2 pw2).error = (app_login users sess1 uid1 pw1).error ∧
    (app_login users sess1 uid1 pw1).redirect = false ∧
    (app_login users sess2 uid2 pw2).redirect = false ∧
    (app_login users sess1 uid1 pw1).sess = sess1 ∧
    (app_login users sess2 uid2 pw2).sess = sess2 ∧
    (auth_login users sess1 uid1 pw1).error = some "Invalid user ID or password." ∧
    (auth_login users sess2 uid2 pw2).error = (auth_login users sess1 uid1 pw1).error ∧
    (auth_login users sess1 uid1 pw1).sess = sess1 ∧
    (auth_login users sess2 uid2 pw2).sess = sess2 := by
  have happ : ∀ (sess : Session) uid pw, pyStrip uid ≠ "" → pw ≠ "" →
      (∀ u, get_user_by_id users (pyStrip uid) = some u →
        check_password_hash u.password_hash pw = false) →
      app_login users sess uid pw = ⟨false, some "Invalid user ID or password.", sess⟩ := by
    intro sess uid pw hu hp hf
    simp only [app_login]
    rw [if_neg (by push_neg; exact ⟨hu, hp⟩)]
    cases hc : get_user_by_id users (pyStrip uid) with
    | none => rfl
    | some u =>
      simp only []
      rw [if_neg (by simp [hf u hc])]
  have hauth : ∀ (sess : Session) uid pw, pyUpper uid ≠ "" → pw ≠ "" →
      (∀ u, get_user_by_id users (pyUpper uid) = some u →
        check_password_hash u.password_hash pw = false) →
      auth_login users sess uid pw = ⟨false, some "Invalid user ID or password.", sess⟩ := by
    intro sess uid pw hu hp hf
    simp only [auth_login]
    rw [if_neg (by push_neg; exact ⟨hu, hp⟩)]
    cases hc : get_user_by_id users (pyUpper uid) with
    | none => rfl
    | some u =>
      simp only []
      rw [if_pos (by simp [hf u hc])]
  rw [happ sess1 uid1 pw1 h1 h2 hf1, happ sess2 uid2 pw2 h3 h4 hf2,
    hauth sess1 uid1 pw1 h5 h2 hf3, hauth sess2 uid2 pw2 h6 h4 hf4]
  exact ⟨rfl, rfl, rfl, rfl, rfl, rfl, rfl, rfl, rfl, rfl⟩

/-- Witness for C8: an unknown id in one run, a known id with the wrong
password in the other; both runs of both login implementations end in the
same generic failure message. -/
theorem c8_login_no_enumeration_witness :
    (app_login [⟨"P0001", generate_password_hash "rightpass", "Alice", "a@b.c", none⟩]
        emptySession "P0002" "whatever1").error = some "Invalid user ID or password." ∧
    (app_login [⟨"P0001", generate_password_hash "rightpass", "Alice", "a@b.c", none⟩]
        emptySession "P0001" "wrongpass").error = some "Invalid user ID or password." := by
  have h := c8_login_no_enumeration
    [⟨"P0001", generate_password_hash "rightpass", "Alice", "a@b.c", none⟩]
    emptySession emptySession "P0002" "whatever1" "P0001" "wrongpass"
    (by decide) (by decide) (by decide) (by decide) (by decide) (by decide)
    (by decide) (by decide) (by decide) (by decide)
  exact ⟨h.1, h.2.1.trans h.1⟩

/-- C9 counterexample: a concrete session holding pending federated
identity (google_email, google_name, google_sub) and a successful
password login through the `app.py` login route: the session is
established (user_id set, redirect to the dashboard) yet every pending
federated key survives, contradicting the claim that any session
establishment discards the pending federated identity. -/
theorem c9_counterexample :
    (app_login [⟨"P0001", generate_password_hash "password123", "Alice", "a@b.c", none⟩]
        ⟨none, none, some "g@x.com", some "G", some "s1"⟩ "P0001" "password123").redirect
      = true ∧
    (app_login [⟨"P0001", generate_password_hash "password123", "Alice", "a@b.c", none⟩]
        ⟨none, none, some "g@x.com", some "G", some "s1"⟩ "P0001" "password123").sess
      = ⟨some "P0001", none, some "g@x.com", some "G", some "s1"⟩ := by
  constructor
  · decide
  · decide

/-- C9 amended: only the modular `auth.py` login clears the session
(discarding pending federated identity) when it establishes a session;
the `app.py` login and the existing-user branch of `auth_google` set the
session user while preserving any pending `google_email`, `google_name`
and `google_sub`, so pending federated identity survives those
establishments. -/
theorem c9_session_establishment_amended (users : List UserRow) (sess : Session)
    (uidF pw em : String) (sub : Option String) (isS : Bool) (u u2 u3 : UserRow)
    (hne : pyStrip uidF ≠ "") (hpw : pw ≠ "")
    (hfind : get_user_by_id users (pyStrip uidF) = some u)
    (hchk : check_password_hash u.password_hash pw = true)
    (hneU : pyUpper uidF ≠ "")
    (hfindU : get_user_by_id users (pyUpper uidF) = some u2)
    (hchkU : check_password_hash u2.password_hash pw = true)
    (hbe : get_user_by_email users em = some u3) :
    (app_login users sess uidF pw).redirect = true ∧
    (app_login users sess uidF pw).sess = { sess with user_id := some (pyStrip uidF) } ∧
    (auth_login users sess uidF pw).redirect = true ∧
    (auth_login users sess uidF pw).sess = { emptySession with user_id := some (pyUpper uidF) } ∧
    (auth_google users sess (some em) sub isS).res = GoogleResolution.loginSession u3.user_id ∧
    (auth_google users sess (some em) sub isS).sess
      = { sess with user_id := some u3.user_id, google_linked := some true } := by
  have happ : app_login users sess uidF pw =
      ⟨true, none, { sess with user_id := some (pyStrip uidF) }⟩ := by
    simp only [app_login, hfind]
    rw [if_neg (by push_neg; exact ⟨hne, hpw⟩), if_pos hchk]
  have hauth : auth_login users sess uidF pw =
      ⟨true, none, { emptySession with user_id := some (pyUpper uidF) }⟩ := by
    simp only [auth_login, hfindU]
    rw [if_neg (by push_neg; exact ⟨hneU, hpw⟩), if_neg (by simp [hchkU])]
  have hgoog : auth_google users sess (some em) sub isS =
      ⟨GoogleResolution.loginSession u3.user_id,
        { sess with user_id := some u3.user_id, google_linked := some true }, users⟩ := by
    simp only [auth_google, hbe]
  exact ⟨by rw [happ], by rw [happ], by rw [hauth], by rw [hauth], by rw [hgoog], by rw [hgoog]⟩

/-- Witness for C9 amended: concrete store and a session carrying pending
federated state; the `app.py` login preserves it while the `auth.py`
login ends with a cleared session. -/
theorem c9_session_establishment_amended_witness :
    (app_login [⟨"P0001", generate_password_hash "password123", "Alice", "a@b.c", none⟩]
        ⟨none, none, some "g@x.com", some "G", some "s1"⟩ "P0001" "password123").sess.google_email
      = some "g@x.com" ∧
    (auth_login [⟨"P0001", generate_password_hash "password123", "Alice", "a@b.c", none⟩]
        ⟨none, none, some "g@x.com", some "G", some "s1"⟩ "P0001" "password123").sess.google_email
      = none := by
  have h := c9_session_establishment_amended
    [⟨"P0001", generate_password_hash "password123", "Alice", "a@b.c", none⟩]
    ⟨none, none, some "g@x.com", some "G", some "s1"⟩ "P0001" "password123" "a@b.c" (some "s1")
    true ⟨"P0001", generate_password_hash "password123", "Alice", "a@b.c", none⟩
    ⟨"P0001", generate_password_hash "password123", "Alice", "a@b.c", none⟩
    ⟨"P0001", generate_password_hash "password123", "Alice", "a@b.c", none⟩
    (by decide) (by decide) (by decide) (by decide) (by decide) (by decide) (by decide) (by decide)
  exact ⟨by rw [h.2.1], by rw [h.2.2.2.1]; decide⟩

/-- C6 counterexample: a verified token with email "a@b.c", display name
"Bob" and subject "s1" against an empty store, arriving with signup
intent.  The resolution is the pending-link redirect, but the pending
state records no display name at all (the route never reads the payload
name, which is why `auth_google` has no name parameter): the session's
`google_name` stays absent instead of holding "Bob", refuting the claimed
`PendingLink(email, name, subjectId)`. -/
theorem c6_counterexample :
    (auth_google [] emptySession (some "a@b.c") (some "s1") true).res
      = GoogleResolution.pendingLink ∧
    (auth_google [] emptySession (some "a@b.c") (some "s1") true).sess.google_name = none ∧
    ¬ (auth_google [] emptySession (some "a@b.c") (some "s1") true).sess.google_name
        = some "Bob" := by
  refine ⟨by decide, by decide, by decide⟩

/-- C6 amended: with intent inferred from the request referrer (the
`isS` flag) rather than supplied explicitly: an existing user with the
token email resolves to a login session regardless of intent and no row
is created; an unknown email with signup intent resolves to the pending
link, the session recording only the email and subject id (the display
name is not captured); an unknown email with login intent is rejected
and neither the table nor the session changes. -/
theorem c6_federated_resolution_amended (users : List UserRow) (sess : Session)
    (em : String) (sub : Option String) (isS : Bool) :
    (∀ u, get_user_by_email users em = some u →
      (auth_google users sess (some em) sub isS).res = GoogleResolution.loginSession u.user_id ∧
      (auth_google users sess (some em) sub isS).users = users) ∧
    (get_user_by_email users em = none → isS = true →
      (auth_google users sess (some em) sub isS).res = GoogleResolution.pendingLink ∧
      (auth_google users sess (some em) sub isS).sess.google_email = some em ∧
      (auth_google users sess (some em) sub isS).sess.google_sub = sub ∧
      (auth_google users sess (some em) sub isS).sess.google_name = sess.google_name ∧
      (auth_google users sess (some em) sub isS).users = users) ∧
    (get_user_by_email users em = none → isS = false →
      (auth_google users sess (some em) sub isS).res
        = GoogleResolution.rejected "No account found with this email. Please sign up first." ∧
      (auth_google users sess (some em) sub isS).sess = sess ∧
      (auth_google users sess (some em) sub isS).users = users) := by
  refine ⟨?_, ?_, ?_⟩
  · intro u hu
    simp [auth_google, hu]
  · intro hn hs
    subst hs
    simp [auth_google, hn]
  · intro hn hs
    subst hs
    simp [auth_google, hn]

/-- Witness for C6 amended: all three branches at concrete inputs: an
existing user logs straight in; an unknown email with signup referrer
reaches the pending link; an unknown email from the login page is
rejected. -/
theorem c6_federated_resolution_amended_witness :
    (auth_google [⟨"P0001", "h0", "Alice", "a@b.c", none⟩] emptySession (some "a@b.c")
        (some "s1") false).res = GoogleResolution.loginSession "P0001" ∧
    (auth_google [] emptySession (some "b@c.d") (some "s2") true).res
      = GoogleResolution.pendingLink ∧
    (auth_google [] emptySession (some "b@c.d") (some "s2") false).res
      = GoogleResolution.rejected "No account found with this email. Please sign up first." := by
  have h1 := (c6_federated_resolution_amended [⟨"P0001", "h0", "Alice", "a@b.c", none⟩]
    emptySession "a@b.c" (some "s1") false).1 ⟨"P0001", "h0", "Alice", "a@b.c", none⟩ (by decide)
  have h2 := (c6_federated_resolution_amended [] emptySession "b@c.d" (some "s2") true).2.1
    (by decide) rfl
  have h3 := (c6_federated_resolution_amended [] emptySession "b@c.d" (some "s2") false).2.2
    (by decide) rfl
  exact ⟨h1.1, h2.1, h3.1⟩

/-- C4 counterexample: the store already holds a user with email
"a@b.c"; `create_user` with the same email under the fresh id "P0002"
succeeds and appends a second row, because the created table declares no
UNIQUE constraint on the email column — refuting both the claimed
`ConflictError` and the claimed `email UNIQUE NOT NULL` schema. -/
theorem c4_counterexample :
    create_user [⟨"P0001", "h1", "Alice", "a@b.c", none⟩] ⟨"P0002", "h2", "Bob", "a@b.c", none⟩
      = Except.ok
          [⟨"P0001", "h1", "Alice", "a@b.c", none⟩, ⟨"P0002", "h2", "Bob", "a@b.c", none⟩] := rfl

/-- C4 amended: the `users` table does not enforce email uniqueness:
`create_user` with an already-present email and a fresh user id succeeds
and inserts the row.  Email uniqueness is enforced one level up, by the
signup route's prior lookup: signing up with an email already present
fails with the duplicate-email error and creates no row. -/
theorem c4_email_uniqueness_amended (users : List UserRow) (r u0 : UserRow)
    (nameF emailF phoneF countryF pw : String)
    (hmem : u0 ∈ users) (hemail : u0.email = r.email)
    (hfresh : ∀ u ∈ users, u.user_id ≠ r.user_id)
    (hname : pyStrip nameF ≠ "")
    (hemF : pyStrip emailF = r.email) (hene : r.email ≠ "")
    (hat : r.email.toList.contains '@' = true)
    (hpw : pw ≠ "") (hlen : 8 ≤ pw.toList.length)
    (hphone : pyStrip phoneF = "") :
    create_user users r = Except.ok (users ++ [r]) ∧
    (signup_post users nameF emailF phoneF countryF pw pw).users = users ∧
    (signup_post users nameF emailF phoneF countryF pw pw).error
      = some "Email already exists. Please use a different email or login." ∧
    (signup_post users nameF emailF phoneF countryF pw pw).redirect = false := by
  have hcreate : create_user users r = Except.ok (users ++ [r]) := by
    unfold create_user
    rw [if_neg ?_]
    simp only [List.any_eq_true, decide_eq_true_eq]
    rintro ⟨u, hu, he⟩
    exact hfresh u hu he
  have hdup : ∃ u, get_user_by_email users (pyStrip emailF) = some u := by
    rw [hemF]
    rw [← Option.isSome_iff_exists]
    rw [get_user_by_email]
    rw [List.find?_isSome]
    exact ⟨u0, hmem, by simp [hemail]⟩
  obtain ⟨u', hu'⟩ := hdup
  have hpost : signup_post users nameF emailF phoneF countryF pw pw =
      ⟨users, some "Email already exists. Please use a different email or login.", false⟩ := by
    simp only [signup_post]
    rw [if_neg hname]
    rw [if_neg (by rw [hemF]; push_neg; exact ⟨hene, by simpa using hat⟩)]
    rw [if_neg hpw, if_neg (by omega), if_neg hpw, if_neg (by simp)]
    rw [if_neg (by simp [hphone])]
    simp only [signup_insert, hu']
  exact ⟨hcreate, by rw [hpost], by rw [hpost], by rw [hpost]⟩

/-- Witness for C4 amended: a concrete duplicate-email insert succeeds at
the store layer while the signup route rejects it and leaves the table
unchanged. -/
theorem c4_email_uniqueness_amended_witness :
    create_user [⟨"P0001", "h1", "Alice", "a@b.c", none⟩] ⟨"P0003", "h3", "Eve", "a@b.c", none⟩
      = Except.ok
          [⟨"P0001", "h1", "Alice", "a@b.c", none⟩, ⟨"P0003", "h3", "Eve", "a@b.c", none⟩] ∧
    (signup_post [⟨"P0001", "h1", "Alice", "a@b.c", none⟩] "Eve" "a@b.c" "" "+977"
        "longpass1" "longpass1").users = [⟨"P0001", "h1", "Alice", "a@b.c", none⟩] ∧
    (signup_post [⟨"P0001", "h1", "Alice", "a@b.c", none⟩] "Eve" "a@b.c" "" "+977"
        "longpass1" "longpass1").error
      = some "Email already exists. Please use a different email or login." := by
  have h := c4_email_uniqueness_amended [⟨"P0001", "h1", "Alice", "a@b.c", none⟩]
    ⟨"P0003", "h3", "Eve", "a@b.c", none⟩ ⟨"P0001", "h1", "Alice", "a@b.c", none⟩
    "Eve" "a@b.c" "" "+977" "longpass1"
    (by decide) (by decide) (by decide) (by decide) (by decide) (by decide) (by decide)
    (by decide) (by decide) (by decide)
  exact ⟨h.1, h.2.1, h.2.2.1⟩

/-- C7 counterexample: no issuance can produce a code whose first
character is a zero — `str(random.randint(100000, 999999))` only ever
prints values of `[100000, 999999]`, whose decimal string never starts
with the digit 0.  This refutes the claimed uniform draw over all 10^6
six-digit strings with leading zeros allowed. -/
theorem c7_counterexample : ¬ ∃ seed : Nat, (otpOf seed).toList.head? = some '0' := by
  rintro ⟨seed, hseed⟩
  have h0 : 0 < 100000 + seed % 900000 := by omega
  exact decStr_head_ne_zero _ h0 hseed

/-- C7 amended: every code produced by issuance is the decimal string of
a uniformly drawn integer of `[100000, 999999]`: exactly 6 ASCII digits
whose first character is never the digit 0. -/
theorem c7_otp_format_amended (seed : Nat) :
    (otpOf seed).toList.length = 6 ∧
    (∀ c ∈ (otpOf seed).toList, c.isDigit = true) ∧
    (otpOf seed).toList.head? ≠ some '0' := by
  refine ⟨otpOf_length seed, decStr_digits _, ?_⟩
  have h0 : 0 < 100000 + seed % 900000 := by omega
  exact decStr_head_ne_zero _ h0

/-! ## Helper lemmas for the id-allocation bridge -/

theorem digit_toNat_bounds (c : Char) (h : c.isDigit = true) :
    48 ≤ c.toNat ∧ c.toNat ≤ 57 := by
  simp only [Char.isDigit, Bool.and_eq_true, decide_eq_true_eq] at h
  exact h

theorem isDigit_not_whitespace (c : Char) (h : c.isDigit = true) :
    c.isWhitespace = false := by
  by_contra hw
  have hw2 : c.isWhitespace = true := by
    cases hc : c.isWhitespace with
    | true => rfl
    | false => exact absurd hc hw
  simp only [Char.isWhitespace, Bool.or_eq_true, decide_eq_true_eq] at hw2
  rcases hw2 with ((rfl | rfl) | rfl) | rfl <;> exact absurd h (by decide)

theorem isDigit_ne_minus (c : Char) (h : c.isDigit = true) : c ≠ '-' := by
  rintro rfl
  exact absurd h (by decide)

theorem isDigit_ne_plus (c : Char) (h : c.isDigit = true) : c ≠ '+' := by
  rintro rfl
  exact absurd h (by decide)

theorem takeWhile_eq_self_of_forall {p : Char → Bool} {l : List Char}
    (h : ∀ c ∈ l, p c = true) : l.takeWhile p = l := by
  induction l with
  | nil => rfl
  | cons a l ih =>
    rw [List.takeWhile_cons, if_pos (h a (List.mem_cons_self a l))]
    rw [ih (fun c hc => h c (List.mem_cons_of_mem a hc))]

theorem natOfDigits_lt (cs : List Char) (h : ∀ c ∈ cs, c.isDigit = true) :
    natOfDigits cs < 10 ^ cs.length := by
  suffices hgen : ∀ a, List.foldl (fun a c => 10 * a + (c.toNat - 48)) a cs
      < (a + 1) * 10 ^ cs.length by
    have := hgen 0
    simpa [natOfDigits] using this
  induction cs with
  | nil => intro a; simp
  | cons c cs ih =>
    intro a
    have hc := digit_toNat_bounds c (h c (List.mem_cons_self c cs))
    have hrec := ih (fun x hx => h x (List.mem_cons_of_mem c hx)) (10 * a + (c.toNat - 48))
    calc List.foldl (fun a c => 10 * a + (c.toNat - 48)) (10 * a + (c.toNat - 48)) cs
        < (10 * a + (c.toNat - 48) + 1) * 10 ^ cs.length := hrec
      _ ≤ (10 * a + 10) * 10 ^ cs.length := by
          have : c.toNat - 48 ≤ 9 := by omega
          exact Nat.mul_le_mul_right _ (by omega)
      _ = (a + 1) * 10 ^ (c :: cs).length := by
          simp only [List.length_cons, pow_succ]
          ring

theorem isP4_elim (id : String) (h : isP4 id = true) :
    ∃ rest, id.toList = 'P' :: rest ∧ rest.length = 4 ∧ ∀ c ∈ rest, c.isDigit = true := by
  unfold isP4 at h
  cases hl : id.toList with
  | nil => rw [hl] at h; exact absurd h (by decide)
  | cons c rest =>
    rw [hl] at h
    simp only [Bool.and_eq_true, decide_eq_true_eq, List.all_eq_true] at h
    obtain ⟨⟨rfl, hlen⟩, hdig⟩ := h
    exact ⟨rest, rfl, hlen, hdig⟩

theorem isP4_likeP (id : String) (h : isP4 id = true) : likeP id = true := by
  obtain ⟨rest, hl, _, _⟩ := isP4_elim id h
  have hld : id.data = 'P' :: rest := hl
  simp [likeP, hld]

theorem sqliteCastInt_of_digits (cs : List Char) (hne : cs ≠ [])
    (hdig : ∀ c ∈ cs, c.isDigit = true) : sqliteCastInt cs = (natOfDigits cs : Int) := by
  cases cs with
  | nil => exact absurd rfl hne
  | cons c rest =>
    have hc := hdig c (List.mem_cons_self c rest)
    have hdw : List.dropWhile Char.isWhitespace (c :: rest) = c :: rest := by
      rw [List.dropWhile_cons, if_neg (by simp [isDigit_not_whitespace c hc])]
    unfold sqliteCastInt
    simp only [hdw]
    rw [if_neg (isDigit_ne_minus c hc), if_neg (isDigit_ne_plus c hc)]
    rw [takeWhile_eq_self_of_forall hdig]

theorem isP4_cast (id : String) (h : isP4 id = true) :
    sqliteCastInt (id.toList.drop 1) = (p4val id : Int) ∧ p4val id ≤ 9999 := by
  obtain ⟨rest, hl, hlen, hdig⟩ := isP4_elim id h
  have hd : id.toList.drop 1 = rest := by rw [hl]; rfl
  have hb := natOfDigits_lt rest hdig
  rw [hlen] at hb
  constructor
  · rw [hd]
    unfold p4val
    rw [hd]
    apply sqliteCastInt_of_digits
    · intro hcontra
      rw [hcontra] at hlen
      exact absurd hlen (by decide)
    · exact hdig
  · unfold p4val
    rw [hd]
    omega

theorem sqlMaxInt_go (l : List Int) (v : Int) :
    List.foldl (fun acc w => match acc with | none => some w | some m => some (max m w))
      (some v) l = some (List.foldl max v l) := by
  induction l generalizing v with
  | nil => rfl
  | cons a l ih => simp only [List.foldl_cons]; exact ih (max v a)

theorem sqlMaxInt_cons (a : Int) (l : List Int) :
    sqlMaxInt (a :: l) = some (List.foldl max a l) := by
  unfold sqlMaxInt
  simp only [List.foldl_cons]
  exact sqlMaxInt_go l a

theorem foldl_max_natCast (l : List Nat) (a : Nat) :
    List.foldl max ((a : Int)) (l.map Nat.cast) = ((List.foldl max a l : Nat) : Int) := by
  induction l generalizing a with
  | nil => rfl
  | cons b l ih =>
    simp only [List.map_cons, List.foldl_cons]
    have hmax : max ((a : Int)) ((b : Int)) = ((max a b : Nat) : Int) := by omega
    rw [hmax, ih (max a b)]

theorem decChars_length_le (f n k : Nat) (hf : n < f) (hk : 0 < k) (h : n < 10 ^ k) :
    (decChars f n).length ≤ k := by
  induction f generalizing n k with
  | zero => omega
  | succ f ih =>
    by_cases h10 : n < 10
    · simp only [decChars, if_pos h10, List.length_singleton]
      omega
    · obtain ⟨j, rfl⟩ : ∃ j, k = j + 1 := ⟨k - 1, by omega⟩
      have hj : 0 < j := by
        by_contra hj
        have : j = 0 := by omega
        subst this
        simp at h
        omega
      have hd2 : n / 10 < 10 ^ j := by
        rw [Nat.div_lt_iff_lt_mul (by norm_num)]
        calc n < 10 ^ (j + 1) := h
          _ = 10 ^ j * 10 := pow_succ 10 j
      have hdf : n / 10 < f := by
        have : n / 10 < n := Nat.div_lt_self (by omega) (by norm_num)
        omega
      simp only [decChars, if_neg h10, List.length_append, List.length_singleton]
      have := ih (n / 10) j hdf hj hd2
      omega

theorem isP4_pad (m : Nat) (hm : m + 1 ≤ 9999) :
    isP4 ("P" ++ padZeros (decStr (m + 1)) 4) = true := by
  have hlen_le : (decChars (m + 2) (m + 1)).length ≤ 4 :=
    decChars_length_le (m + 2) (m + 1) 4 (by omega) (by norm_num) (by omega)
  have htl : ("P" ++ padZeros (decStr (m + 1)) 4).toList
      = 'P' :: (List.replicate (4 - (decChars (m + 2) (m + 1)).length) '0'
          ++ decChars (m + 2) (m + 1)) := rfl
  simp only [isP4, htl]
  simp only [Bool.and_eq_true, decide_eq_true_eq, List.all_eq_true]
  refine ⟨⟨trivial, ?_⟩, ?_⟩
  · rw [List.length_append, List.length_replicate]
    omega
  · intro c hc
    rcases List.mem_append.mp hc with hc | hc
    · rw [List.eq_of_mem_replicate hc]
      decide
    · exact decStr_digits (m + 1) c hc

theorem format_max_id (m : Nat) :
    "P" ++ pyFormat04d ((if ((m : Nat) : Int) = 0 then 0 else ((m : Nat) : Int)) + 1)
      = "P" ++ padZeros (decStr (m + 1)) 4 := by
  by_cases hm : m = 0
  · subst hm
    decide
  · rw [if_neg (by exact_mod_cast hm)]
    unfold pyFormat04d
    rw [if_neg (by omega)]
    have ht : ((m : Int) + 1).toNat = m + 1 := by omega
    rw [ht]

/-- C5 counterexample: at the store holding the single id "P9999" the
allocator yields "P10000": the suffix has five digits, not the claimed
4-digit zero-padded format, and no 4-digit decimal of 10000 exists. -/
theorem c5_counterexample :
    get_next_user_id [⟨"P9999", "h", "Niles", "n@x.y", none⟩] = "P10000" ∧
    isP4 (get_next_user_id [⟨"P9999", "h", "Niles", "n@x.y", none⟩]) = false := by
  constructor
  · decide
  · decide

/-- C5 amended: on any store whose ids starting with `P` (or `p`, which
SQLite's case-insensitive LIKE also selects) all match the strict `P####`
pattern with suffix value at most 9998, the allocator agrees with the
claimed specification: `P` followed by the 4-digit zero-padded decimal of
one greater than the maximum suffix, `P0001` on a store with no such id;
and the allocated id itself matches `P####`.  (Beyond suffix 9999 the
width grows past four digits, and ids of other shapes feed the max scan
through SQLite CAST semantics instead of the `P####` parse.) -/
theorem c5_allocate_next_id_amended (users : List UserRow)
    (h : ∀ u ∈ users, likeP u.user_id = true → isP4 u.user_id = true ∧ p4val u.user_id ≤ 9998) :
    get_next_user_id users = allocate_next_id_claim users ∧
    isP4 (get_next_user_id users) = true := by
  have hfeq : users.filter (fun u => likeP u.user_id) = users.filter (fun u => isP4 u.user_id) := by
    apply List.filter_congr
    intro u hu
    cases hP : isP4 u.user_id with
    | true => rw [isP4_likeP _ hP]
    | false =>
      cases hL : likeP u.user_id with
      | false => rfl
      | true =>
        rw [(h u hu hL).1] at hP
        exact absurd hP (by simp)
  have hmapeq : (users.filter (fun u => isP4 u.user_id)).map
        (fun u => sqliteCastInt (u.user_id.toList.drop 1))
      = ((users.filter (fun u => isP4 u.user_id)).map (fun u => p4val u.user_id)).map
          Nat.cast := by
    rw [List.map_map]
    apply List.map_congr_left
    intro u hu
    have hP : isP4 u.user_id = true := (List.mem_filter.mp hu).2
    simpa using (isP4_cast _ hP).1
  cases hvc : (users.filter (fun u => isP4 u.user_id)).map (fun u => p4val u.user_id) with
  | nil =>
    have hcode : get_next_user_id users = "P0001" := by
      simp only [get_next_user_id, hfeq, hmapeq, hvc, List.map_nil]
      decide
    have hclaim : allocate_next_id_claim users = "P0001" := by
      simp only [allocate_next_id_claim, hvc]
      decide
    exact ⟨by rw [hcode, hclaim], by rw [hcode]; decide⟩
  | cons a t =>
    have hm9998 : t.foldl max a ≤ 9998 := by
      have hmax : (a :: t).max? = some (t.foldl max a) := rfl
      have hmem : t.foldl max a ∈ a :: t :=
        List.max?_mem (fun x y => max_choice x y) hmax
      rw [← hvc] at hmem
      obtain ⟨u, hu, hueq⟩ := List.mem_map.mp hmem
      have hP := List.mem_filter.mp hu
      exact hueq ▸ (h u hP.1 (isP4_likeP _ hP.2)).2
    have hcode : get_next_user_id users
        = "P" ++ padZeros (decStr (t.foldl max a + 1)) 4 := by
      simp only [get_next_user_id, hfeq, hmapeq, hvc, List.map_cons, sqlMaxInt_cons,
        foldl_max_natCast]
      exact format_max_id (t.foldl max a)
    have hclaim : allocate_next_id_claim users
        = "P" ++ padZeros (decStr (t.foldl max a + 1)) 4 := by
      simp only [allocate_next_id_claim, hvc]
      rfl
    refine ⟨by rw [hcode, hclaim], ?_⟩
    rw [hcode]
    exact isP4_pad (t.foldl max a) (by omega)

/-- Witness for C5 amended: the store with the single id "P0007"
allocates "P0008", agreeing with the claim-side allocator, and the
result matches `P####`. -/
theorem c5_allocate_next_id_amended_witness :
    get_next_user_id [⟨"P0007", "h", "Greg", "g@x.y", none⟩]
      = allocate_next_id_claim [⟨"P0007", "h", "Greg", "g@x.y", none⟩] ∧
    isP4 (get_next_user_id [⟨"P0007", "h", "Greg", "g@x.y", none⟩]) = true ∧
    get_next_user_id [⟨"P0007", "h", "Greg", "g@x.y", none⟩] = "P0008" := by
  have h := c5_allocate_next_id_amended [⟨"P0007", "h", "Greg", "g@x.y", none⟩]
    (by intro u hu hl; constructor
        · simp only [List.mem_singleton] at hu
          subst hu
          decide
        · simp only [List.mem_singleton] at hu
          subst hu
          decide)
  exact ⟨h.1, h.2, by decide⟩
